import Mathlib

/-!
Verification of the DSGVO-Checker compliance pipeline.

Shallow embedding of the Python sources (`compliance_checker.py`,
`protocol_manager.py`, `report_generator.py`, `document_processor.py`,
`app.py`, `config.py`) into Lean.  Python floats carrying scores and
progress values are modelled as rationals (`ℚ`); Python dicts (which
preserve insertion order) are modelled as ordered association lists;
fallible operations (the model call, JSON files, division) are modelled
with `Except`/`Option` or an explicit file-state type.
-/

namespace DSGVO

/-! ## Data model (`compliance_checker.py`, pydantic models) -/

/-- `SectionResult` pydantic model: score in 0..100, issues,
recommendations, and per-criterion references. -/
structure SectionResult where
  score : ℚ
  issues : List String
  recommendations : List String
  references : List (String × List String)
deriving DecidableEq

/-- `ComplianceAnalysis` pydantic model: the structured output requested
from the language model. -/
structure ComplianceAnalysis where
  summary : String
  section_results : List (String × SectionResult)
deriving DecidableEq

/-- The result dict built by `ComplianceChecker.check_compliance`
(keys `filename`, `overall_score`, `section_results`, `summary`). -/
structure ComplianceResult where
  filename : String
  overall_score : ℚ
  section_results : List (String × SectionResult)
  summary : String
deriving DecidableEq

/-- A protocol: Python `Dict[str, List[str]]` mapping section names to
criterion lists, as an insertion-ordered association list. -/
abbrev Protocol := List (String × List String)

/-- `config.py`: `max_content_length: int = int(os.getenv('MAX_CONTENT_LENGTH', '8000'))`,
the default character budget for prompt content. -/
def defaultMaxContentLength : Nat := 8000

/-! ## `ComplianceChecker` (`compliance_checker.py`) -/

/-- `_calculate_overall_score`: `0.0` for an empty section map, otherwise
`sum(section.get('score', 0.0) for section in section_results.values()) / len(section_results)`. -/
def calculate_overall_score (section_results : List (String × SectionResult)) : ℚ :=
  if section_results.isEmpty then 0
  else ((section_results.map fun s => s.2.score).sum) / (section_results.length : ℚ)

/-- `_create_empty_result`: the fixed zero-score result returned for
empty documents, with a language-dependent summary. -/
def create_empty_result (filename language : String) : ComplianceResult :=
  if language = "Deutsch" then
    { filename := filename, overall_score := 0, section_results := [],
      summary := "Dokument ist leer oder konnte nicht verarbeitet werden" }
  else
    { filename := filename, overall_score := 0, section_results := [],
      summary := "Document is empty or could not be processed" }

/-- `_create_error_result`: the zero-score result returned when the model
call fails, embedding the error message in a localized summary. -/
def create_error_result (filename error_message language : String) : ComplianceResult :=
  if language = "Deutsch" then
    { filename := filename, overall_score := 0, section_results := [],
      summary := "Fehler bei der Verarbeitung: " ++ error_message }
  else
    { filename := filename, overall_score := 0, section_results := [],
      summary := "Error during processing: " ++ error_message }

/-- Python whitespace characters stripped by `str.strip()` (ASCII range;
space, tab, newline, carriage return, vertical tab, form feed). -/
def is_py_space (c : Char) : Bool :=
  c = ' ' || c = '\t' || c = '\n' || c = '\x0d' || c = '\x0b' || c = '\x0c'

/-- Models the Python test `not text_content.strip()`: true exactly when
every character of the string is whitespace (so the strip is empty). -/
def strip_is_empty (s : String) : Bool :=
  s.data.all is_py_space

/-- The truncation step of `_create_analysis_prompt` (lines 95-98):
`if len(text_content) > max_chars: text_content = text_content[:max_chars] + "\n[Content truncated due to length]"`.
Python's code-point slice `text[:n]` is `String.mk (text.data.take n)`. -/
def truncate_content (max_chars : Nat) (text : String) : String :=
  if text.length > max_chars then
    String.mk (text.data.take max_chars) ++ "\n[Content truncated due to length]"
  else text

/-- The criteria loop of `_create_analysis_prompt`:
`for section, criteria in protocol.items(): prompt += f"\n{section}:\n"; for criterion in criteria: prompt += f"- {criterion}\n"`. -/
def protocol_lines (protocol : Protocol) : String :=
  protocol.foldl
    (fun acc sc =>
      sc.2.foldl (fun acc2 criterion => acc2 ++ "- " ++ criterion ++ "\n")
        (acc ++ "\n" ++ sc.1 ++ ":\n"))
    ""

/-- German prompt text before the document content. -/
def de_prompt_intro : String :=
  "\n            Analysieren Sie das folgende Dokument auf DSGVO-Compliance basierend auf den bereitgestellten Kriterien.\n\n            DOKUMENTINHALT:\n            "

/-- German prompt text between the document content and the criteria. -/
def de_prompt_mid : String :=
  "\n\n            COMPLIANCE-KRITERIEN:\n            "

/-- German prompt closing instructions (scores 0-100 per section, at least
one issue and recommendation, references, short summary). -/
def de_prompt_outro : String :=
  "\n            \n            Bitte analysieren Sie das Dokument und geben Sie eine strukturierte Bewertung zurück.\n            \n            Wichtige Anforderungen:\n            - Scores zwischen 0-100 für jeden Abschnitt\n            - Mindestens ein Issue und eine Recommendation pro Abschnitt\n            - References für jedes Kriterium\n            - Eine kurze Zusammenfassung der Gesamtbewertung\n            "

/-- English prompt text before the document content. -/
def en_prompt_intro : String :=
  "\n            Please analyze the following document for GDPR compliance based on the provided criteria.\n\n            DOCUMENT CONTENT:\n            "

/-- English prompt text between the document content and the criteria. -/
def en_prompt_mid : String :=
  "\n\n            COMPLIANCE CRITERIA:\n            "

/-- English prompt closing instructions. -/
def en_prompt_outro : String :=
  "\n            \n            Please analyze the document and provide a structured assessment.\n            \n            Important requirements:\n            - Scores between 0-100 for each section\n            - At least one issue and one recommendation per section\n            - References for each criterion\n            - A brief summary of the overall assessment\n            "

/-- `_create_analysis_prompt`: truncates the content to the configured
budget, then builds the localized prompt embedding the (possibly
truncated) text and the protocol's sections and criteria. -/
def create_analysis_prompt (max_chars : Nat) (text_content : String)
    (protocol : Protocol) (language : String) : String :=
  let text := truncate_content max_chars text_content
  if language = "Deutsch" then
    de_prompt_intro ++ text ++ de_prompt_mid ++ protocol_lines protocol ++ de_prompt_outro
  else
    en_prompt_intro ++ text ++ en_prompt_mid ++ protocol_lines protocol ++ en_prompt_outro

/-- `check_compliance`: short-circuits on whitespace-only text; otherwise
invokes the model (modelled by the `model_call` oracle, which returns
`Except.error` for any network/validation failure caught by the
`except Exception` handler) and assembles the result dict. -/
def check_compliance (model_call : String → Except String ComplianceAnalysis)
    (max_chars : Nat) (text_content : String) (protocol : Protocol)
    (filename : String) (language : String) : ComplianceResult :=
  if strip_is_empty text_content then
    create_empty_result filename language
  else
    match model_call (create_analysis_prompt max_chars text_content protocol language) with
    | Except.error e => create_error_result filename e language
    | Except.ok analysis =>
        { filename := filename
          overall_score := calculate_overall_score analysis.section_results
          section_results := analysis.section_results
          summary := analysis.summary }

/-! ## `ProtocolManager` (`protocol_manager.py`)

The protocol file holds a JSON document.  `Json` is the value produced by
a successful `json.load`; `FileState` is the state of the protocol file:
missing (`FileNotFoundError`), malformed (`json.JSONDecodeError`), or
holding a parsed JSON value. -/

/-- A parsed JSON value (`json.load` output). -/
inductive Json where
  | str : String → Json
  | num : ℚ → Json
  | bool : Bool → Json
  | null : Json
  | arr : List Json → Json
  | obj : List (String × Json) → Json

/-- State of the protocol file on disk. -/
inductive FileState where
  | missing
  | malformed
  | contents (j : Json)

/-- JSON encoding of one criteria list (a JSON array of strings). -/
def encode_criteria (cs : List String) : Json :=
  Json.arr (cs.map Json.str)

/-- JSON encoding of a protocol mapping (`json.dump` of a
`Dict[str, List[str]]`; Python dicts and `json.dump` preserve insertion
order, `ensure_ascii=False` keeps the strings themselves unchanged). -/
def encode_protocol (p : Protocol) : Json :=
  Json.obj (p.map fun kv => (kv.1, encode_criteria kv.2))

/-- Reading a parsed JSON array back as a list of strings; `none` when
some element is not a string. -/
def decode_str_list : List Json → Option (List String)
  | [] => some []
  | Json.str s :: xs => (decode_str_list xs).map (fun rest => s :: rest)
  | _ => none

/-- Reading a parsed JSON value back as a criteria list. -/
def decode_criteria : Json → Option (List String)
  | Json.arr xs => decode_str_list xs
  | _ => none

/-- Reading parsed JSON object entries back as protocol entries. -/
def decode_protocol_entries : List (String × Json) → Option Protocol
  | [] => some []
  | (k, v) :: kvs =>
      match decode_criteria v with
      | some cs => (decode_protocol_entries kvs).map (fun rest => (k, cs) :: rest)
      | none => none

/-- Viewing a parsed JSON value at the annotated type
`Dict[str, List[str]]`; `none` when the stored JSON has another shape. -/
def decode_protocol : Json → Option Protocol
  | Json.obj kvs => decode_protocol_entries kvs
  | _ => none

/-- `save_protocol`: `json.dump(protocol, f, indent=2, ensure_ascii=False)`
overwrites the file with the JSON document of the full mapping, with no
filtering of the criteria. -/
def save_protocol (p : Protocol) : FileState :=
  FileState.contents (encode_protocol p)

/-- `_get_default_protocol`: the hard-coded default GDPR protocol in
German, transcribed from `protocol_manager.py` lines 78-199. -/
def default_protocol : Protocol :=
  [("Identifikation personenbezogener Daten",
    ["Prüfung der Verarbeitung personenbezogener Daten",
     "Identifikation der Arten gesammelter personenbezogener Daten",
     "Überprüfung der Datensparsamkeit",
     "Prüfung auf besondere Kategorien personenbezogener Daten",
     "Verifizierung der Zweckbestimmung der Datenverarbeitung"]),
   ("Rechtliche Grundlagen",
    ["Überprüfung der rechtlichen Grundlage für die Datenverarbeitung",
     "Prüfung der ordnungsgemäßen Einwilligung",
     "Dokumentation des berechtigten Interesses",
     "Verifizierung der vertraglichen Notwendigkeit",
     "Prüfung der gesetzlichen Verpflichtungen"]),
   ("Rechte der betroffenen Person",
    ["Sicherstellung des Auskunftsrechts",
     "Prüfung der Berichtigungsverfahren",
     "Verifizierung des Löschungsrechts (Recht auf Vergessenwerden)",
     "Sicherstellung der Datenübertragbarkeit",
     "Prüfung der Widerspruchsverfahren",
     "Überprüfung der Einschränkungsrechte"]),
   ("Datensicherheit",
    ["Verifizierung angemessener technischer Maßnahmen",
     "Prüfung organisatorischer Sicherheitsmaßnahmen",
     "Sicherstellung der Datenverschlüsselung bei Übertragung und Speicherung",
     "Verifizierung von Zugriffskontrollen und Authentifizierung",
     "Prüfung der Pseudonymisierung und Anonymisierung"]),
   ("Datenaufbewahrung",
    ["Prüfung der Datenaufbewahrungsrichtlinien",
     "Verifizierung der Löschverfahren",
     "Sicherstellung gerechtfertigter Aufbewahrungsfristen",
     "Prüfung der Datenarchivierungspraktiken",
     "Überprüfung der automatisierten Löschung"]),
   ("Datenweitergabe an Dritte",
    ["Verifizierung von Auftragsverarbeitungsverträgen",
     "Prüfung der Datenweitergabe an Dritte",
     "Sicherstellung angemessener Schutzmaßnahmen bei Übermittlungen",
     "Verifizierung der internationalen Datenübermittlung",
     "Prüfung der Standardvertragsklauseln"]),
   ("Einwilligungsverwaltung",
    ["Prüfung der Einwilligungserhebung",
     "Verifizierung der Widerrufsmechanismen",
     "Sicherstellung der freiwilligen Einwilligung",
     "Prüfung der Einwilligungsdokumentation",
     "Überprüfung der altersgerechten Einwilligung"]),
   ("Datenschutzverletzungen",
    ["Verifizierung der Erkennungsverfahren für Datenschutzverletzungen",
     "Prüfung der Benachrichtigungspflichten",
     "Sicherstellung von Incident-Response-Plänen",
     "Verifizierung der Dokumentationsverfahren für Verletzungen",
     "Prüfung der Meldung an Aufsichtsbehörden"]),
   ("Medizinische Datenverarbeitung",
    ["Prüfung der ärztlichen Schweigepflicht",
     "Verifizierung der medizinischen Zweckbestimmung",
     "Sicherstellung der Qualitätssicherung in der Medizin",
     "Prüfung der Forschungszwecke in der Medizin",
     "Überprüfung der Gesundheitsdatenverarbeitung",
     "Verifizierung der medizinischen Notfallverarbeitung"]),
   ("Daten von Minderjährigen",
    ["Prüfung der Altersverifizierung",
     "Verifizierung der elterlichen Einwilligung",
     "Sicherstellung des Kinderschutzes",
     "Prüfung der altersgerechten Informationsvermittlung",
     "Überprüfung der besonderen Schutzmaßnahmen",
     "Verifizierung der Risikobewertung für Minderjährige"]),
   ("Forschungsdatenverarbeitung",
    ["Prüfung der wissenschaftlichen Forschungszwecke",
     "Verifizierung der Forschungsethik",
     "Sicherstellung der Forschungsfreiheit",
     "Prüfung der wissenschaftlichen Interessen",
     "Überprüfung der Forschungsdokumentation",
     "Verifizierung der Forschungsdatenarchivierung"]),
   ("Öffentliche Verwaltung",
    ["Prüfung der behördlichen Aufgabenwahrnehmung",
     "Verifizierung der öffentlichen Interessen",
     "Sicherstellung der Transparenzpflichten",
     "Prüfung der behördlichen Informationspflichten",
     "Überprüfung der Verwaltungsverfahren",
     "Verifizierung der öffentlichen Sicherheit"]),
   ("Beschäftigtendatenschutz",
    ["Prüfung der Beschäftigtendatenverarbeitung",
     "Verifizierung der betrieblichen Interessen",
     "Sicherstellung der Mitbestimmungsrechte",
     "Prüfung der Arbeitsplatzüberwachung",
     "Überprüfung der Beschäftigtendokumentation"]),
   ("Marketing und Werbung",
    ["Prüfung der Direktwerbung",
     "Verifizierung der Profilbildung",
     "Sicherstellung der Werbeeinwilligung",
     "Prüfung der Tracking-Technologien",
     "Überprüfung der Marketingdatenverarbeitung"]),
   ("Videoüberwachung",
    ["Prüfung der Überwachungszwecke",
     "Verifizierung der Kennzeichnungspflichten",
     "Sicherstellung der Verhältnismäßigkeit",
     "Prüfung der Aufbewahrungsfristen für Aufnahmen",
     "Überprüfung der Zugriffsberechtigungen"]),
   ("Big Data und KI",
    ["Prüfung der automatisierten Entscheidungsfindung",
     "Verifizierung der Profilbildung",
     "Sicherstellung der Erklärbarkeit",
     "Prüfung der algorithmischen Transparenz",
     "Überprüfung der KI-Ethik",
     "Verifizierung der menschlichen Aufsicht"])]

/-- `load_protocol`: returns the parsed file contents viewed at the
annotated type `Dict[str, List[str]]`; on `FileNotFoundError` or
`json.JSONDecodeError` it returns the default protocol, never raising
(the function is total). -/
def load_protocol : FileState → Option Protocol
  | FileState.missing => some default_protocol
  | FileState.malformed => some default_protocol
  | FileState.contents j => decode_protocol j

/-- `app.py` line 365 (protocol editor): the only place whitespace-only
criteria are discarded, `[c for c in criteria_list if c.strip()]`,
before `save_protocol` is called. -/
def editor_criteria_filter (criteria_list : List String) : List String :=
  criteria_list.filter (fun c => !(strip_is_empty c))

/-! ## `ReportGenerator` (`report_generator.py`) and `display_report` (`app.py`)

A rendered report is modelled as the ordered list of content blocks the
renderer appends (headings, paragraphs, spacers, metrics), and the
renderer as an `Except`-valued function: Python's unguarded
`sum(...) / total_files` raises `ZeroDivisionError` on an empty result
list, modelled as `Except.error "division by zero"`. -/

/-- One content block of a rendered report: a heading with its level, a
text paragraph, a vertical spacer, or a labelled metric widget. -/
inductive Block where
  | heading : Nat → String → Block
  | para : String → Block
  | spacer : Block
  | metric : String → String → Block
deriving DecidableEq

/-- The `options` sub-dict of `report_data` (`app.py` lines 523-527). -/
structure ReportOptions where
  include_summary : Bool
  include_details : Bool
  include_recommendations : Bool
deriving DecidableEq

/-- The `report_data` dict (`app.py` lines 520-528). -/
structure ReportData where
  results : List ComplianceResult
  protocol : Protocol
  options : ReportOptions

/-- Renders a score the way Python's `"{:.1f}"` format does for the
nonnegative scores that reach it: one digit after the decimal point
(float tie-breaking details are irrelevant to every property below,
since no claim constrains the formatted digits). -/
def fmt1 (q : ℚ) : String :=
  toString (round (10 * q) / 10) ++ "." ++ toString (round (10 * q) % 10)

/-- `compliant = len([s for s in scores if s >= 80])`. -/
def compliant_count (scores : List ℚ) : Nat :=
  (scores.filter fun s => decide (80 ≤ s)).length

/-- `needs_improvement = len([s for s in scores if 60 <= s < 80])`. -/
def needs_improvement_count (scores : List ℚ) : Nat :=
  (scores.filter fun s => decide (60 ≤ s ∧ s < 80)).length

/-- `non_compliant = len([s for s in scores if s < 60])`. -/
def non_compliant_count (scores : List ℚ) : Nat :=
  (scores.filter fun s => decide (s < 60)).length

/-- `scores = [r['overall_score'] for r in report_data['results']]`. -/
def scores_of (results : List ComplianceResult) : List ℚ :=
  results.map fun r => r.overall_score

/-- `avg_score = sum(r['overall_score'] for r in results) / total_files`:
Python raises `ZeroDivisionError` when `total_files == 0`. -/
def average_score (results : List ComplianceResult) : Except String ℚ :=
  if results.length = 0 then Except.error "division by zero"
  else Except.ok ((scores_of results).sum / (results.length : ℚ))

/-- Bulleted paragraphs `f'• {item}'` for a list of items. -/
def bullet_paras (items : List String) : List Block :=
  items.map fun x => Block.para ("• " ++ x)

/-- The per-criterion reference paragraphs of the detail section. -/
def reference_paras (references : List (String × List String)) : List Block :=
  references.flatMap fun kv =>
    Block.para ("- " ++ kv.1 ++ ":") :: kv.2.map fun r => Block.para ("    • " ++ r)

/-- Executive-summary blocks of `generate_word_report` (lines 53-76):
document count, average score, and the three-bucket distribution.
Performs the unguarded division. -/
def word_summary_blocks (results : List ComplianceResult) : Except String (List Block) := do
  let avg ← average_score results
  pure [Block.heading 1 "Executive Summary",
    Block.para ("Total Documents Analyzed: " ++ toString results.length),
    Block.para ("Average Compliance Score: " ++ fmt1 avg ++ "%"),
    Block.para ("Compliant (≥80%): " ++ toString (compliant_count (scores_of results))),
    Block.para ("Needs Improvement (60-79%): " ++
      toString (needs_improvement_count (scores_of results))),
    Block.para ("Non-Compliant (<60%): " ++
      toString (non_compliant_count (scores_of results))),
    Block.para ""]

/-- Detail blocks for one protocol section of one document
(`generate_word_report` lines 93-114); empty issue/recommendation/reference
collections suppress their sub-heading, following Python truthiness. -/
def word_section_detail_blocks (section_name : String) (sr : SectionResult) : List Block :=
  [Block.heading 3 section_name, Block.para ("Score: " ++ fmt1 sr.score ++ "%")] ++
  (if sr.issues.isEmpty then [] else
    Block.heading 4 "Issues:" :: bullet_paras sr.issues) ++
  (if sr.recommendations.isEmpty then [] else
    Block.heading 4 "Recommendations:" :: bullet_paras sr.recommendations) ++
  (if sr.references.isEmpty then [] else
    Block.heading 4 "References (Fundstellen):" :: reference_paras sr.references) ++
  [Block.para ""]

/-- Detail blocks for one document (`generate_word_report` lines 86-114). -/
def word_result_detail_blocks (r : ComplianceResult) : List Block :=
  Block.heading 2 (r.filename ++ " - " ++ fmt1 r.overall_score ++ "%") ::
    r.section_results.flatMap fun kv => word_section_detail_blocks kv.1 kv.2

/-- The "Detailed Findings" chapter (`generate_word_report` lines 79-114). -/
def word_detail_blocks (results : List ComplianceResult) : List Block :=
  Block.heading 1 "Detailed Findings" :: results.flatMap word_result_detail_blocks

/-- `all_recommendations`: every recommendation of every section of every
document, in traversal order (lines 124-127). -/
def all_recommendations (results : List ComplianceResult) : List String :=
  results.flatMap fun r => r.section_results.flatMap fun kv => kv.2.recommendations

/-- `unique_recommendations = list(set(all_recommendations))`: duplicates
removed; CPython set iteration order is unspecified and the spec declares
the order not significant, modelled as `List.dedup`. -/
def unique_recommendations (results : List ComplianceResult) : List String :=
  (all_recommendations results).dedup

/-- The "Overall Recommendations" chapter (lines 117-132). -/
def word_recommendation_blocks (results : List ComplianceResult) : List Block :=
  Block.heading 1 "Overall Recommendations" ::
    bullet_paras (unique_recommendations results)

/-- `generate_word_report`: title, timestamp, blank spacer paragraph, then
the three optional chapters in order.  `now` is the formatted
`datetime.now()` timestamp. -/
def generate_word_report (now : String) (rd : ReportData) : Except String (List Block) := do
  let title := [Block.heading 0 "DSGVO Compliance Report",
    Block.para ("Generated on: " ++ now), Block.para ""]
  let summary ← if rd.options.include_summary then
      word_summary_blocks rd.results
    else pure []
  let details := if rd.options.include_details then
      word_detail_blocks rd.results
    else []
  let recommendations := if rd.options.include_recommendations then
      word_recommendation_blocks rd.results
    else []
  pure (title ++ summary ++ details ++ recommendations)

/-- Executive-summary story elements of `generate_pdf_report`
(lines 183-205); same content as the Word variant, ending in a spacer. -/
def pdf_summary_blocks (results : List ComplianceResult) : Except String (List Block) := do
  let avg ← average_score results
  pure [Block.heading 1 "Executive Summary",
    Block.para ("Total Documents Analyzed: " ++ toString results.length),
    Block.para ("Average Compliance Score: " ++ fmt1 avg ++ "%"),
    Block.para ("Compliant (≥80%): " ++ toString (compliant_count (scores_of results))),
    Block.para ("Needs Improvement (60-79%): " ++
      toString (needs_improvement_count (scores_of results))),
    Block.para ("Non-Compliant (<60%): " ++
      toString (non_compliant_count (scores_of results))),
    Block.spacer]

/-- Detail story elements for one section (`generate_pdf_report`
lines 222-243), ending in a spacer. -/
def pdf_section_detail_blocks (section_name : String) (sr : SectionResult) : List Block :=
  [Block.heading 3 section_name, Block.para ("Score: " ++ fmt1 sr.score ++ "%")] ++
  (if sr.issues.isEmpty then [] else
    Block.heading 4 "Issues:" :: bullet_paras sr.issues) ++
  (if sr.recommendations.isEmpty then [] else
    Block.heading 4 "Recommendations:" :: bullet_paras sr.recommendations) ++
  (if sr.references.isEmpty then [] else
    Block.heading 4 "References (Fundstellen):" :: reference_paras sr.references) ++
  [Block.spacer]

/-- `generate_pdf_report`: identical content structure to the Word
renderer (title, timestamp, spacer, then the optional chapters). -/
def generate_pdf_report (now : String) (rd : ReportData) : Except String (List Block) := do
  let title := [Block.heading 0 "DSGVO Compliance Report",
    Block.para ("Generated on: " ++ now), Block.spacer]
  let summary ← if rd.options.include_summary then
      pdf_summary_blocks rd.results
    else pure []
  let details := if rd.options.include_details then
      Block.heading 1 "Detailed Findings" ::
        rd.results.flatMap fun r =>
          Block.heading 2 (r.filename ++ " - " ++ fmt1 r.overall_score ++ "%") ::
            r.section_results.flatMap fun kv => pdf_section_detail_blocks kv.1 kv.2
    else []
  let recommendations := if rd.options.include_recommendations then
      Block.heading 1 "Overall Recommendations" ::
        bullet_paras (unique_recommendations rd.results)
    else []
  pure (title ++ summary ++ details ++ recommendations)

/-- Executive-summary widgets of `display_report` (`app.py` lines
568-586): the same unguarded division and the same three buckets shown as
metrics. -/
def display_summary_blocks (results : List ComplianceResult) : Except String (List Block) := do
  let avg ← average_score results
  pure [Block.heading 2 "Executive Summary",
    Block.metric "Total Documents Analyzed" (toString results.length),
    Block.metric "Average Compliance Score" (fmt1 avg ++ "%"),
    Block.metric "Compliant (≥80%)" (toString (compliant_count (scores_of results))),
    Block.metric "Needs Improvement (60-79%)"
      (toString (needs_improvement_count (scores_of results))),
    Block.metric "Non-Compliant (<60%)"
      (toString (non_compliant_count (scores_of results)))]

/-- Detail lines for one section in `display_report` (lines 594-612). -/
def display_section_detail_blocks (section_name : String) (sr : SectionResult) : List Block :=
  Block.para ("**" ++ section_name ++ ":** " ++ fmt1 sr.score ++ "%") ::
  (if sr.issues.isEmpty then [] else
    Block.para "**Issues:**" :: bullet_paras sr.issues) ++
  (if sr.recommendations.isEmpty then [] else
    Block.para "**Recommendations:**" :: bullet_paras sr.recommendations) ++
  (if sr.references.isEmpty then [] else
    Block.para "**References (Fundstellen):**" :: reference_paras sr.references)

/-- `display_report` (`app.py` lines 564-627): the in-memory display
structure, with the same optional chapters as the file renderers. -/
def display_report (rd : ReportData) : Except String (List Block) := do
  let title := [Block.heading 1 "📊 Compliance Report"]
  let summary ← if rd.options.include_summary then
      display_summary_blocks rd.results
    else pure []
  let details := if rd.options.include_details then
      Block.heading 2 "Detailed Findings" ::
        rd.results.flatMap fun r =>
          Block.para ("📄 " ++ r.filename ++ " - " ++ fmt1 r.overall_score ++ "%") ::
            r.section_results.flatMap fun kv => display_section_detail_blocks kv.1 kv.2
    else []
  let recommendations := if rd.options.include_recommendations then
      Block.heading 2 "Overall Recommendations" ::
        (unique_recommendations rd.results).map fun rec => Block.para ("• " ++ rec)
    else []
  pure (title ++ summary ++ details ++ recommendations)

/-! ## `DocumentProcessor` (`document_processor.py`)

Only the progress values passed to the callback matter for the claims;
`pdf_progress_events n` is the sequence a successful PDF extraction of an
`n`-page document reports: `0.1` from `extract_text`, then `0.2`, `0.3`,
`0.3 + (page/n)*0.6` for each page, and finally `0.9` from
`_extract_from_pdf`; `extract_text` then returns without reporting
further. -/

/-- The per-page progress values of `_extract_from_pdf` (lines 63-66):
`0.3 + (page_num / total_pages) * 0.6`. -/
def pdf_page_progress (total_pages : Nat) : List ℚ :=
  (List.range total_pages).map fun p : Nat =>
    3/10 + ((p : ℚ) / (total_pages : ℚ)) * (6/10)

/-- All progress values reported during a successful PDF extraction. -/
def pdf_progress_events (total_pages : Nat) : List ℚ :=
  1/10 :: 2/10 :: 3/10 :: (pdf_page_progress total_pages ++ [9/10])

end DSGVO

namespace DSGVO

/-! ## Theorems -/

/-- Decoding inverts encoding on criteria lists. -/
theorem decode_encode_criteria (cs : List String) :
    decode_criteria (encode_criteria cs) = some cs := by
  suffices h : decode_str_list (cs.map Json.str) = some cs by
    simpa [decode_criteria, encode_criteria] using h
  induction cs with
  | nil => rfl
  | cons c cs ih => simp [decode_str_list, ih]

/-- Decoding inverts encoding on whole protocols. -/
theorem decode_encode_protocol (p : Protocol) :
    decode_protocol (encode_protocol p) = some p := by
  suffices h : decode_protocol_entries (p.map fun kv => (kv.1, encode_criteria kv.2)) =
      some p by
    simpa [decode_protocol, encode_protocol] using h
  induction p with
  | nil => rfl
  | cons kv p ih => simp [decode_protocol_entries, decode_encode_criteria, ih]

/-- C3 counterexample: loading from a missing file does return the
hard-coded default protocol, but that protocol has 16 sections, not 14 as
claimed. -/
theorem load_protocol_default_fourteen_false :
    load_protocol FileState.missing = some default_protocol ∧
    default_protocol.length = 16 ∧ ¬ default_protocol.length = 14 :=
  ⟨rfl, rfl, by decide⟩

/-- C3 (amended): loading the protocol when the file is missing or
contains malformed JSON returns the hard-coded built-in default protocol,
which has 16 sections; `load_protocol` is a total function, so no
exception reaches the caller. -/
theorem load_protocol_default_spec :
    load_protocol FileState.missing = some default_protocol ∧
    load_protocol FileState.malformed = some default_protocol ∧
    default_protocol.length = 16 :=
  ⟨rfl, rfl, rfl⟩

/-- C5 counterexample: a whitespace-only criterion passed to
`save_protocol` is persisted verbatim and appears in the loaded protocol,
so the claim's "whitespace-only criteria are discarded before persistence"
fails on `save_protocol` followed by `load_protocol`. -/
theorem save_load_whitespace_persisted :
    load_protocol (save_protocol [("Datensicherheit", ["   "])]) =
      some [("Datensicherheit", ["   "])] ∧
    strip_is_empty "   " = true :=
  ⟨rfl, rfl⟩

/-- C5 (amended): saving any protocol mapping and then loading yields an
equal mapping — round-trip identity with criteria order preserved —
including whitespace-only criteria, which `save_protocol` persists
unchanged; only the app's protocol editor discards whitespace-only
criteria (and every criterion surviving that filter is non-whitespace)
before it calls `save_protocol`. -/
theorem save_load_roundtrip_spec :
    (∀ p : Protocol, load_protocol (save_protocol p) = some p) ∧
    (∀ cs : List String, ∀ c ∈ editor_criteria_filter cs, strip_is_empty c = false) := by
  constructor
  · intro p
    simpa [load_protocol, save_protocol] using decode_encode_protocol p
  · intro cs c hc
    have := List.of_mem_filter hc
    simpa using this

/-- Witness for C5 at a concrete protocol (one section, two criteria, one
of them whitespace-only) and a concrete editor filter run. -/
theorem save_load_roundtrip_spec_witness :
    load_protocol (save_protocol [("Datensicherheit", ["Verschlüsselung", " "])]) =
      some [("Datensicherheit", ["Verschlüsselung", " "])] ∧
    ("Verschlüsselung" ∈ editor_criteria_filter ["Verschlüsselung", " "] ∧
      strip_is_empty "Verschlüsselung" = false) :=
  ⟨save_load_roundtrip_spec.1 [("Datensicherheit", ["Verschlüsselung", " "])],
   by decide,
   save_load_roundtrip_spec.2 ["Verschlüsselung", " "] "Verschlüsselung" (by decide)⟩

/-- C7: every score falls into exactly one of the three buckets — the
bucket counts always sum to the number of scores — and for the scores
`[95, 70, 40]` the distribution is compliant = 1, needs improvement = 1,
non-compliant = 1, with mean `205/3`, which is `68.33` rounded to two
decimals. -/
theorem bucketing_spec :
    (∀ scores : List ℚ,
      compliant_count scores + needs_improvement_count scores +
        non_compliant_count scores = scores.length) ∧
    compliant_count [95, 70, 40] = 1 ∧
    needs_improvement_count [95, 70, 40] = 1 ∧
    non_compliant_count [95, 70, 40] = 1 ∧
    average_score
      [ComplianceResult.mk "a.pdf" 95 [] "", ComplianceResult.mk "b.pdf" 70 [] "",
       ComplianceResult.mk "c.pdf" 40 [] ""] = Except.ok (205/3) ∧
    round ((205 : ℚ)/3 * 100) = 6833 := by
  refine ⟨?_, by decide, by decide, by decide, ?_, by norm_num [round_eq]⟩
  · intro scores
    induction scores with
    | nil => rfl
    | cons s t ih =>
      rcases lt_or_le s 60 with h1 | h1
      · have e1 : compliant_count (s :: t) = compliant_count t := by
          have : ¬ (80 : ℚ) ≤ s := not_le.mpr (h1.trans_le (by norm_num))
          simp [compliant_count, List.filter_cons, this]
        have e2 : needs_improvement_count (s :: t) = needs_improvement_count t := by
          have : ¬ ((60 : ℚ) ≤ s ∧ s < 80) := fun h => absurd h1 (not_lt.mpr h.1)
          simp [needs_improvement_count, List.filter_cons, this]
        have e3 : non_compliant_count (s :: t) = non_compliant_count t + 1 := by
          simp [non_compliant_count, List.filter_cons, h1]
        rw [e1, e2, e3, List.length_cons]
        omega
      · rcases lt_or_le s 80 with h2 | h2
        · have e1 : compliant_count (s :: t) = compliant_count t := by
            simp [compliant_count, List.filter_cons, not_le.mpr h2]
          have e2 : needs_improvement_count (s :: t) = needs_improvement_count t + 1 := by
            simp [needs_improvement_count, List.filter_cons, h1, h2]
          have e3 : non_compliant_count (s :: t) = non_compliant_count t := by
            simp [non_compliant_count, List.filter_cons, not_lt.mpr h1]
          rw [e1, e2, e3, List.length_cons]
          omega
        · have e1 : compliant_count (s :: t) = compliant_count t + 1 := by
            simp [compliant_count, List.filter_cons, h2]
          have e2 : needs_improvement_count (s :: t) = needs_improvement_count t := by
            have : ¬ ((60 : ℚ) ≤ s ∧ s < 80) := fun h => absurd h2 (not_le.mpr h.2)
            simp [needs_improvement_count, List.filter_cons, this]
          have e3 : non_compliant_count (s :: t) = non_compliant_count t := by
            have : ¬ s < 60 := not_lt.mpr ((by norm_num : (60 : ℚ) ≤ 80).trans h2)
            simp [non_compliant_count, List.filter_cons, this]
          rw [e1, e2, e3, List.length_cons]
          omega
  · simp [average_score, scores_of]
    norm_num

/-- C8 counterexample: for a one-page PDF the reported progress sequence
is `[0.1, 0.2, 0.3, 0.3, 0.9]` — the final value emitted on success is
`0.9`, not `1.0` as claimed (no reader ever calls the callback with
`1.0`). -/
theorem pdf_progress_final_not_one :
    pdf_progress_events 1 = [1/10, 2/10, 3/10, 3/10, 9/10] ∧
    (pdf_progress_events 1).getLast? = some (9/10) ∧ ((9 : ℚ)/10) ≠ 1 := by
  have h : pdf_progress_events 1 = [1/10, 2/10, 3/10, 3/10, 9/10] := by
    simp [pdf_progress_events, pdf_page_progress, List.range_succ]
  exact ⟨h, by rw [h]; rfl, by norm_num⟩

/-- C8 (amended): for every page count, the progress values a successful
PDF extraction emits through the callback form a monotonically
non-decreasing sequence, each value lies in `[0,1]`, and the final value
emitted on success is `0.9`. -/
theorem pdf_progress_spec (n : Nat) :
    (pdf_progress_events n).Chain' (· ≤ ·) ∧
    (∀ x ∈ pdf_progress_events n, 0 ≤ x ∧ x ≤ 1) ∧
    (pdf_progress_events n).getLast? = some (9/10) := by
  rcases Nat.eq_zero_or_pos n with hn | hn
  · subst hn
    have h : pdf_progress_events 0 = [1/10, 2/10, 3/10, 9/10] := by
      simp [pdf_progress_events, pdf_page_progress]
    rw [h]
    refine ⟨?_, ?_, rfl⟩
    · simp [List.chain'_cons]
      norm_num
    · intro x hx
      simp only [List.mem_cons, List.not_mem_nil, or_false] at hx
      rcases hx with rfl | rfl | rfl | rfl <;> norm_num
  · have hnq : (0 : ℚ) < (n : ℚ) := by exact_mod_cast hn
    have hbound : ∀ p : ℕ, p < n →
        3/10 ≤ 3/10 + ((p : ℚ)/(n : ℚ)) * (6/10) ∧
        3/10 + ((p : ℚ)/(n : ℚ)) * (6/10) ≤ 9/10 := by
      intro p hp
      have h0 : (0 : ℚ) ≤ (p : ℚ)/(n : ℚ) := div_nonneg (by positivity) hnq.le
      have h1 : (p : ℚ)/(n : ℚ) ≤ 1 := by
        rw [div_le_one hnq]
        exact_mod_cast hp.le
      constructor <;> nlinarith
    have hmemb : ∀ x ∈ pdf_page_progress n, 3/10 ≤ x ∧ x ≤ 9/10 := by
      intro x hx
      simp only [pdf_page_progress, List.mem_map, List.mem_range] at hx
      obtain ⟨p, hp, rfl⟩ := hx
      exact hbound p hp
    have hpm : List.Pairwise (· ≤ ·) (pdf_page_progress n) := by
      refine List.Pairwise.map _ ?_ (List.pairwise_lt_range n)
      intro a b hab
      have hq : (a : ℚ) ≤ (b : ℚ) := by exact_mod_cast hab.le
      have : (a : ℚ)/(n : ℚ) ≤ (b : ℚ)/(n : ℚ) := by gcongr
      nlinarith
    have hm9 : List.Pairwise (· ≤ ·) (pdf_page_progress n ++ [9/10]) := by
      rw [List.pairwise_append]
      refine ⟨hpm, List.pairwise_singleton _ _, ?_⟩
      intro x hx y hy
      simp only [List.mem_singleton] at hy
      subst hy
      exact (hmemb x hx).2
    have hmem9 : ∀ y ∈ pdf_page_progress n ++ [9/10], 3/10 ≤ y := by
      intro y hy
      rcases List.mem_append.mp hy with hy | hy
      · exact (hmemb y hy).1
      · simp only [List.mem_singleton] at hy
        subst hy
        norm_num
    have hpair : List.Pairwise (· ≤ ·) (pdf_progress_events n) := by
      rw [pdf_progress_events]
      refine List.Pairwise.cons ?_ (List.Pairwise.cons ?_ (List.Pairwise.cons ?_ hm9))
      · intro y hy
        rcases List.mem_cons.mp hy with rfl | hy
        · norm_num
        · rcases List.mem_cons.mp hy with rfl | hy
          · norm_num
          · linarith [hmem9 y hy]
      · intro y hy
        rcases List.mem_cons.mp hy with rfl | hy
        · norm_num
        · linarith [hmem9 y hy]
      · intro y hy
        exact hmem9 y hy
    refine ⟨List.chain'_iff_pairwise.mpr hpair, ?_, ?_⟩
    · intro x hx
      simp only [pdf_progress_events, List.mem_cons, List.mem_append,
        List.mem_singleton, List.not_mem_nil, or_false] at hx
      rcases hx with rfl | rfl | rfl | hx | rfl
      · norm_num
      · norm_num
      · norm_num
      · have := hmemb x hx
        constructor <;> linarith [this.1, this.2]
      · norm_num
    · have hsplit : pdf_progress_events n =
          (1/10 :: 2/10 :: 3/10 :: pdf_page_progress n) ++ [9/10] := by
        simp [pdf_progress_events]
      rw [hsplit, List.getLast?_concat]

/-- Witness for C8's amended theorem at a two-page PDF: the concrete
sequence is a non-decreasing chain, the value `0.1` it contains lies in
`[0,1]`, and the final value is `0.9`. -/
theorem pdf_progress_spec_witness :
    (pdf_progress_events 2).Chain' (· ≤ ·) ∧
    ((1 : ℚ)/10 ∈ pdf_progress_events 2 ∧ 0 ≤ (1 : ℚ)/10 ∧ (1 : ℚ)/10 ≤ 1) ∧
    (pdf_progress_events 2).getLast? = some (9/10) :=
  ⟨(pdf_progress_spec 2).1,
   ⟨by simp [pdf_progress_events],
    (pdf_progress_spec 2).2.1 _ (by simp [pdf_progress_events])⟩,
   (pdf_progress_spec 2).2.2⟩

/-- C9: with all three `include_*` options false, the Word renderer
produces exactly the title heading, the generation-timestamp paragraph,
and the blank spacer paragraph — no summary, detail, or recommendation
content. -/
theorem word_report_all_options_false (now : String) (rd : ReportData)
    (h : rd.options = ReportOptions.mk false false false) :
    generate_word_report now rd =
      Except.ok [Block.heading 0 "DSGVO Compliance Report",
        Block.para ("Generated on: " ++ now), Block.para ""] := by
  simp only [generate_word_report, h]
  rfl

/-- Witness for C9 at a concrete empty `ReportData` with all options
false and a fixed timestamp. -/
theorem word_report_all_options_false_witness :
    (ReportData.mk [] [] (ReportOptions.mk false false false)).options =
      ReportOptions.mk false false false ∧
    generate_word_report "2025-01-01 00:00:00"
        (ReportData.mk [] [] (ReportOptions.mk false false false)) =
      Except.ok [Block.heading 0 "DSGVO Compliance Report",
        Block.para ("Generated on: " ++ "2025-01-01 00:00:00"), Block.para ""] :=
  ⟨rfl, word_report_all_options_false "2025-01-01 00:00:00" _ rfl⟩

/-- C10: with `include_summary` true and an empty results sequence, the
executive-summary computation divides the score sum by zero, so the Word,
PDF, and display renderers all fail with a division-by-zero error instead
of producing a report. -/
theorem report_empty_results_division_error (now : String) (rd : ReportData)
    (hres : rd.results = []) (hsum : rd.options.include_summary = true) :
    generate_word_report now rd = Except.error "division by zero" ∧
    generate_pdf_report now rd = Except.error "division by zero" ∧
    display_report rd = Except.error "division by zero" := by
  refine ⟨?_, ?_, ?_⟩ <;>
    simp [generate_word_report, generate_pdf_report, display_report, hres, hsum,
      word_summary_blocks, pdf_summary_blocks, display_summary_blocks,
      average_score, Except.bind]

/-- Witness for C10 at a concrete `ReportData` with no results and all
options enabled. -/
theorem report_empty_results_division_error_witness :
    (ReportData.mk [] [] (ReportOptions.mk true true true)).results = [] ∧
    (ReportData.mk [] [] (ReportOptions.mk true true true)).options.include_summary = true ∧
    generate_word_report "2025-01-01 00:00:00"
        (ReportData.mk [] [] (ReportOptions.mk true true true)) =
      Except.error "division by zero" ∧
    display_report (ReportData.mk [] [] (ReportOptions.mk true true true)) =
      Except.error "division by zero" :=
  ⟨rfl, rfl,
   (report_empty_results_division_error "2025-01-01 00:00:00" _ rfl rfl).1,
   (report_empty_results_division_error "2025-01-01 00:00:00" _ rfl rfl).2.2⟩

/-- C1: the overall score computed by `_calculate_overall_score` equals the
arithmetic mean of the per-section scores for every non-empty section map,
is `0.0` on the empty map, and lies in `[0,100]` whenever every section
score does. -/
theorem calculate_overall_score_spec :
    calculate_overall_score [] = 0 ∧
    (∀ srs : List (String × SectionResult), srs ≠ [] →
      calculate_overall_score srs = ((srs.map fun s => s.2.score).sum) / (srs.length : ℚ)) ∧
    (∀ srs : List (String × SectionResult),
      (∀ s ∈ srs, 0 ≤ s.2.score ∧ s.2.score ≤ 100) →
      0 ≤ calculate_overall_score srs ∧ calculate_overall_score srs ≤ 100) := by
  refine ⟨rfl, ?_, ?_⟩
  · intro srs hne
    simp [calculate_overall_score, List.isEmpty_iff, hne]
  · intro srs hb
    rcases eq_or_ne srs [] with h | h
    · subst h; simp [calculate_overall_score]
    · have hlen : 0 < (srs.length : ℚ) := by
        have : 0 < srs.length := List.length_pos.mpr h
        exact_mod_cast this
      have hsum0 : 0 ≤ (srs.map fun s => s.2.score).sum := by
        apply List.sum_nonneg
        intro x hx
        rcases List.mem_map.mp hx with ⟨s, hs, rfl⟩
        exact (hb s hs).1
      have hsum100 : (srs.map fun s => s.2.score).sum ≤ (srs.length : ℚ) * 100 := by
        have := List.sum_le_card_nsmul (srs.map fun s => s.2.score) 100 ?_
        · simpa [nsmul_eq_mul] using this
        · intro x hx
          rcases List.mem_map.mp hx with ⟨s, hs, rfl⟩
          exact (hb s hs).2
      have hval : calculate_overall_score srs
          = ((srs.map fun s => s.2.score).sum) / (srs.length : ℚ) := by
        simp [calculate_overall_score, List.isEmpty_iff, h]
      rw [hval]
      constructor
      · exact div_nonneg hsum0 hlen.le
      · rw [div_le_iff₀ hlen]
        linarith

/-- Witness for C1 at a concrete two-section map with scores 80 and 100:
the overall score is their mean 90, which lies in `[0,100]`. -/
theorem calculate_overall_score_spec_witness :
    ([("A", SectionResult.mk 80 [] [] []), ("B", SectionResult.mk 100 [] [] [])] ≠
        ([] : List (String × SectionResult))) ∧
    calculate_overall_score
        [("A", SectionResult.mk 80 [] [] []), ("B", SectionResult.mk 100 [] [] [])] =
      (([("A", SectionResult.mk 80 [] [] []),
        ("B", SectionResult.mk 100 [] [] [])].map fun s => s.2.score).sum) / 2 ∧
    0 ≤ calculate_overall_score
        [("A", SectionResult.mk 80 [] [] []), ("B", SectionResult.mk 100 [] [] [])] ∧
    calculate_overall_score
        [("A", SectionResult.mk 80 [] [] []), ("B", SectionResult.mk 100 [] [] [])] ≤ 100 := by
  refine ⟨by decide, ?_, ?_⟩
  · exact calculate_overall_score_spec.2.1 _ (by decide)
  · exact calculate_overall_score_spec.2.2 _ (by decide)

/-- C2: for whitespace-only text, `check_compliance` short-circuits to the
fixed empty-document result — overall score `0.0`, empty section map, the
fixed localized "document empty" summary — and the result does not depend
on the model oracle (no model call is made). -/
theorem check_compliance_empty_text_spec
    (m₁ m₂ : String → Except String ComplianceAnalysis) (max_chars : Nat)
    (text : String) (protocol : Protocol) (filename language : String)
    (h : strip_is_empty text = true) :
    check_compliance m₁ max_chars text protocol filename language =
        create_empty_result filename language ∧
    (check_compliance m₁ max_chars text protocol filename language).overall_score = 0 ∧
    (check_compliance m₁ max_chars text protocol filename language).section_results = [] ∧
    (check_compliance m₁ max_chars text protocol filename language).summary =
      (if language = "Deutsch" then
        "Dokument ist leer oder konnte nicht verarbeitet werden"
      else "Document is empty or could not be processed") ∧
    check_compliance m₁ max_chars text protocol filename language =
      check_compliance m₂ max_chars text protocol filename language := by
  have he : ∀ m : String → Except String ComplianceAnalysis,
      check_compliance m max_chars text protocol filename language =
        create_empty_result filename language := by
    intro m
    simp [check_compliance, h]
  refine ⟨he m₁, ?_, ?_, ?_, (he m₁).trans (he m₂).symm⟩ <;>
    rw [he m₁] <;> by_cases hl : language = "Deutsch" <;>
      simp [create_empty_result, hl]

/-- Witness for C2 at text `"  \t "` (whitespace-only), a one-section
protocol, and two distinct oracles. -/
theorem check_compliance_empty_text_spec_witness :
    strip_is_empty "  \t " = true ∧
    check_compliance (fun _ => Except.error "boom") 8000 "  \t "
        [("Datensicherheit", ["Verschlüsselung"])] "doc.pdf" "English" =
      create_empty_result "doc.pdf" "English" ∧
    check_compliance (fun _ => Except.error "boom") 8000 "  \t "
        [("Datensicherheit", ["Verschlüsselung"])] "doc.pdf" "English" =
      check_compliance (fun _ => Except.ok (ComplianceAnalysis.mk "s" [])) 8000 "  \t "
        [("Datensicherheit", ["Verschlüsselung"])] "doc.pdf" "English" :=
  ⟨by decide,
   (check_compliance_empty_text_spec (fun _ => Except.error "boom")
      (fun _ => Except.ok (ComplianceAnalysis.mk "s" [])) 8000 "  \t "
      [("Datensicherheit", ["Verschlüsselung"])] "doc.pdf" "English" (by decide)).1,
   (check_compliance_empty_text_spec (fun _ => Except.error "boom")
      (fun _ => Except.ok (ComplianceAnalysis.mk "s" [])) 8000 "  \t "
      [("Datensicherheit", ["Verschlüsselung"])] "doc.pdf" "English" (by decide)).2.2.2.2⟩

/-- C4: when the text is non-empty and the model invocation fails (the
oracle returns an error, matching the `except Exception` handler),
`check_compliance` returns the zero-score error result: overall score
`0.0`, empty section map, and a summary embedding the error message
localized to the selected language; the exception is not propagated. -/
theorem check_compliance_error_spec
    (model_call : String → Except String ComplianceAnalysis) (max_chars : Nat)
    (text : String) (protocol : Protocol) (filename language e : String)
    (hne : strip_is_empty text = false)
    (herr : model_call (create_analysis_prompt max_chars text protocol language) =
      Except.error e) :
    check_compliance model_call max_chars text protocol filename language =
        create_error_result filename e language ∧
    (check_compliance model_call max_chars text protocol filename language).overall_score = 0 ∧
    (check_compliance model_call max_chars text protocol filename language).section_results = [] ∧
    (check_compliance model_call max_chars text protocol filename language).summary =
      (if language = "Deutsch" then "Fehler bei der Verarbeitung: " ++ e
       else "Error during processing: " ++ e) := by
  have he : check_compliance model_call max_chars text protocol filename language =
      create_error_result filename e language := by
    simp [check_compliance, hne, herr]
  refine ⟨he, ?_, ?_, ?_⟩ <;>
    rw [he] <;> by_cases hl : language = "Deutsch" <;>
      simp [create_error_result, hl]

/-- Witness for C4 at text `"Hello"` and an oracle that always fails with
`"network down"`. -/
theorem check_compliance_error_spec_witness :
    strip_is_empty "Hello" = false ∧
    check_compliance (fun _ => Except.error "network down") 8000 "Hello"
        [("Datensicherheit", ["Verschlüsselung"])] "doc.pdf" "Deutsch" =
      create_error_result "doc.pdf" "network down" "Deutsch" ∧
    (check_compliance (fun _ => Except.error "network down") 8000 "Hello"
        [("Datensicherheit", ["Verschlüsselung"])] "doc.pdf" "Deutsch").summary =
      "Fehler bei der Verarbeitung: network down" := by
  have h := check_compliance_error_spec (fun _ => Except.error "network down") 8000
    "Hello" [("Datensicherheit", ["Verschlüsselung"])] "doc.pdf" "Deutsch"
    "network down" (by decide) rfl
  exact ⟨by decide, h.1, by rw [h.2.2.2]; decide⟩

/-- C6: `_create_analysis_prompt` embeds the text unchanged when its
length is at or under the character budget (default 8000), and otherwise
embeds exactly the first `max_chars` characters followed by the fixed
truncation marker; the (possibly truncated) text occurs verbatim inside
the generated prompt. -/
theorem truncation_spec (max_chars : Nat) (text : String) :
    (text.length ≤ max_chars → truncate_content max_chars text = text) ∧
    (max_chars < text.length →
      truncate_content max_chars text =
        String.mk (text.data.take max_chars) ++ "\n[Content truncated due to length]" ∧
      (String.mk (text.data.take max_chars)).length = max_chars) ∧
    defaultMaxContentLength = 8000 ∧
    (∀ protocol language, ∃ pre suf,
      create_analysis_prompt max_chars text protocol language =
        pre ++ truncate_content max_chars text ++ suf) := by
  refine ⟨?_, ?_, rfl, ?_⟩
  · intro hle
    simp [truncate_content, Nat.not_lt.mpr hle]
  · intro hlt
    refine ⟨by simp [truncate_content, hlt], ?_⟩
    have hlen : text.length = text.data.length := rfl
    simp only [String.length, List.length_take]
    omega
  · intro protocol language
    by_cases hl : language = "Deutsch"
    · exact ⟨de_prompt_intro,
        de_prompt_mid ++ protocol_lines protocol ++ de_prompt_outro,
        by simp [create_analysis_prompt, hl, String.append_assoc]⟩
    · exact ⟨en_prompt_intro,
        en_prompt_mid ++ protocol_lines protocol ++ en_prompt_outro,
        by simp [create_analysis_prompt, hl, String.append_assoc]⟩

/-- Witness for C6 at budget 3 and text `"abcde"`: the prompt content is
`"abc"` plus the marker, of prefix length exactly 3; and at budget 8000
the same text passes through unchanged. -/
theorem truncation_spec_witness :
    ("abcde".length ≤ 8000 ∧ truncate_content 8000 "abcde" = "abcde") ∧
    (3 < "abcde".length ∧
      truncate_content 3 "abcde" =
        String.mk ("abcde".data.take 3) ++ "\n[Content truncated due to length]" ∧
      (String.mk ("abcde".data.take 3)).length = 3) :=
  ⟨⟨by decide, (truncation_spec 8000 "abcde").1 (by decide)⟩,
   ⟨by decide, (truncation_spec 3 "abcde").2.1 (by decide)⟩⟩

end DSGVO
